import Mathlib

/-!
Verification of the dlrover elastic-training master control plane: the node manager
(event processing, relaunch policy, missing-event recovery), the job auto-scalers
(PS and AllReduce variants), the create_node_manager factory, and the JSON base64
round trip of the comm message DTOs. Source functions are embedded as executable
Lean definitions; collaborators that are not part of the sources (the state-flow
table, ScalePlan, ResourcePlan, JobResource, job_config helpers) are modelled from
the specification, as marked in their doc comments.
-/

namespace DLRover

/-- Node lifecycle statuses of the constants module, as enumerated in spec section 3. -/
inductive NodeStatus where
  | initial
  | pending
  | running
  | succeeded
  | failed
  | deleted
  deriving DecidableEq, Repr

/-- Watch event kinds of the constants module, as enumerated in spec section 3. -/
inductive NodeEventType where
  | added
  | modified
  | deleted
  deriving DecidableEq, Repr

/-- Exit reasons of the constants module, as enumerated in spec section 3. -/
inductive NodeExitReason where
  | fatalError
  | oom
  | killed
  | unknown
  deriving DecidableEq, Repr

/-- Node types of the constants module, as enumerated in spec section 3. -/
inductive NodeType where
  | ps
  | worker
  | chief
  | evaluator
  | tfMaster
  deriving DecidableEq, Repr

/-- The Node entity of base_watcher, restricted to the fields the node manager reads
and writes; field defaults follow the fresh-node values exercised by
test_node_manager.py (relaunch counts zero, relaunchable, not released). -/
structure Node where
  type : NodeType := NodeType.worker
  id : Nat := 0
  name : String := ""
  status : NodeStatus := NodeStatus.initial
  exitReason : NodeExitReason := NodeExitReason.unknown
  relaunchCount : Nat := 0
  maxRelaunchCount : Nat := 0
  relaunchable : Bool := true
  isReleased : Bool := false
  isRecoveredOom : Bool := false
  usedMemory : Nat := 0
  startTime : Nat := 0
  createTime : Nat := 0
  deriving DecidableEq, Repr

/-- One row of the node state transition table: from_status, accepted event kinds,
to_status and the should_relaunch decision, as described in spec section 3. -/
structure NodeStateFlow where
  fromStatus : NodeStatus
  eventTypes : List NodeEventType
  toStatus : NodeStatus
  shouldRelaunch : Bool
  deriving DecidableEq, Repr

/-- Modelled from the spec: the module status_flow.py is not among the sources. The
rows follow the minimum table of spec section 3, completed so that the row indices
match the expectations of test_node_manager.py (rows 2, 5, 6, 7, 8 and the second
to last row). -/
def NODE_STATE_FLOWS : List NodeStateFlow := [
  { fromStatus := NodeStatus.initial, eventTypes := [NodeEventType.added, NodeEventType.modified],
    toStatus := NodeStatus.pending, shouldRelaunch := false },
  { fromStatus := NodeStatus.initial, eventTypes := [NodeEventType.added, NodeEventType.modified],
    toStatus := NodeStatus.running, shouldRelaunch := false },
  { fromStatus := NodeStatus.pending, eventTypes := [NodeEventType.added, NodeEventType.modified],
    toStatus := NodeStatus.running, shouldRelaunch := false },
  { fromStatus := NodeStatus.pending, eventTypes := [NodeEventType.modified],
    toStatus := NodeStatus.succeeded, shouldRelaunch := false },
  { fromStatus := NodeStatus.pending, eventTypes := [NodeEventType.modified],
    toStatus := NodeStatus.failed, shouldRelaunch := true },
  { fromStatus := NodeStatus.running, eventTypes := [NodeEventType.modified],
    toStatus := NodeStatus.succeeded, shouldRelaunch := false },
  { fromStatus := NodeStatus.running, eventTypes := [NodeEventType.modified],
    toStatus := NodeStatus.failed, shouldRelaunch := true },
  { fromStatus := NodeStatus.pending, eventTypes := [NodeEventType.deleted],
    toStatus := NodeStatus.deleted, shouldRelaunch := true },
  { fromStatus := NodeStatus.running, eventTypes := [NodeEventType.deleted],
    toStatus := NodeStatus.deleted, shouldRelaunch := true },
  { fromStatus := NodeStatus.succeeded, eventTypes := [NodeEventType.deleted],
    toStatus := NodeStatus.deleted, shouldRelaunch := false },
  { fromStatus := NodeStatus.failed, eventTypes := [NodeEventType.deleted],
    toStatus := NodeStatus.deleted, shouldRelaunch := false }]

/-- Modelled from the spec: lookup by the triple old_status, event_type, new_status,
returning the first matching row of NODE_STATE_FLOWS, or none. -/
def get_node_state_flow (fromStatus : NodeStatus) (eventType : NodeEventType)
    (toStatus : NodeStatus) : Option NodeStateFlow :=
  NODE_STATE_FLOWS.find? fun flow =>
    flow.fromStatus == fromStatus && flow.eventTypes.contains eventType
      && flow.toStatus == toStatus

/-- The NodeManager configuration read by the relaunch decision: the MAX_MEMORY
ceiling (a constant of the constants module, kept abstract), the _relaunch_pod flag
and the _wait_pending_relaunch flag. -/
structure MgrCfg where
  maxMemory : Nat
  relaunchPod : Bool
  waitPendingRelaunch : Bool
  deriving DecidableEq, Repr

/-- Embeds NodeManager._should_relaunch, node_manager.py lines 312 to 348. The method
mutates the node (inc_relaunch_count, is_recovered_oom), so the embedding returns the
decision together with the updated node. -/
def should_relaunch (cfg : MgrCfg) (node : Node) (flow : NodeStateFlow) : Bool × Node :=
  let s0 := flow.shouldRelaunch && cfg.relaunchPod && node.relaunchable
  let r :=
    if s0 then
      if node.exitReason = NodeExitReason.fatalError then (false, node)
      else if node.exitReason = NodeExitReason.oom then
        if node.usedMemory > cfg.maxMemory then (false, node)
        else if node.relaunchCount ≥ node.maxRelaunchCount then (false, node)
        else (s0, { node with isRecoveredOom := true })
      else if node.exitReason ≠ NodeExitReason.killed then
        if node.relaunchCount > node.maxRelaunchCount then (false, node)
        else (s0, node)
      else (s0, node)
    else (s0, node)
  if r.1 then (true, { r.2 with relaunchCount := r.2.relaunchCount + 1 })
  else r

/-- The relaunch decision procedure exactly as claim C2 words it, written for
comparison against the source embedding should_relaunch. -/
def should_relaunch_claim (cfg : MgrCfg) (node : Node) (flow : NodeStateFlow) : Bool × Node :=
  if flow.shouldRelaunch && cfg.relaunchPod && node.relaunchable then
    match node.exitReason with
    | NodeExitReason.fatalError => (false, node)
    | NodeExitReason.oom =>
      if node.usedMemory > cfg.maxMemory ∨ node.relaunchCount ≥ node.maxRelaunchCount then
        (false, node)
      else
        (true, { node with isRecoveredOom := true, relaunchCount := node.relaunchCount + 1 })
    | NodeExitReason.killed => (true, { node with relaunchCount := node.relaunchCount + 1 })
    | NodeExitReason.unknown =>
      if node.relaunchCount > node.maxRelaunchCount then (false, node)
      else (true, { node with relaunchCount := node.relaunchCount + 1 })
  else (false, node)

/-- The callback kinds of the event callback bus. -/
inductive CallbackKind where
  | started
  | succeeded
  | failed
  | deleted
  deriving DecidableEq, Repr

/-- Embeds the branch structure of NodeManager._process_node_events, node_manager.py
lines 283 to 310: the callback kind fired on the registered callbacks, if any. -/
def dispatch_kind (flow : NodeStateFlow) : Option CallbackKind :=
  if flow.toStatus = NodeStatus.running then some CallbackKind.started
  else if flow.toStatus = NodeStatus.succeeded then some CallbackKind.succeeded
  else if flow.toStatus = NodeStatus.failed then some CallbackKind.failed
  else if flow.fromStatus ≠ NodeStatus.failed ∧ flow.fromStatus ≠ NodeStatus.succeeded
      ∧ flow.toStatus = NodeStatus.deleted then some CallbackKind.deleted
  else none

/-- Embeds the fan out of NodeManager._process_node_events: every registered callback
receives the dispatched kind; callbacks are identified by name. -/
def process_node_events (flow : NodeStateFlow) (callbacks : List String) :
    List (String × CallbackKind) :=
  match dispatch_kind flow with
  | some k => callbacks.map fun c => (c, k)
  | none => []

/-- The callback mapping exactly as claim C4 and spec section 4.2 word it, written for
comparison against the source embedding dispatch_kind. -/
def dispatch_kind_claim (flow : NodeStateFlow) : Option CallbackKind :=
  match flow.toStatus with
  | NodeStatus.running => some CallbackKind.started
  | NodeStatus.succeeded => some CallbackKind.succeeded
  | NodeStatus.failed => some CallbackKind.failed
  | NodeStatus.deleted =>
    if flow.fromStatus = NodeStatus.failed ∨ flow.fromStatus = NodeStatus.succeeded then none
    else some CallbackKind.deleted
  | _ => none

/-- A watch event as consumed by NodeManager._process_event: an event kind and a node
snapshot. -/
structure WatchEvent where
  eventType : NodeEventType
  node : Node
  deriving DecidableEq, Repr

/-- The observable outcome of one NodeManager._process_event call: the updated node,
the callback kind dispatched to every listener, whether _relaunch_typed_pod was
called, and the _pending_relaunch_count increment. -/
structure EventOutcome where
  node : Node
  firedCallback : Option CallbackKind
  relaunched : Bool
  pendingRelaunchDelta : Nat
  deriving DecidableEq, Repr

/-- Embeds NodeManager._process_event, node_manager.py lines 233 to 281, for the node
the event addresses. The Node methods update_info, update_status and set_exit_reason
are not among the sources and are modelled from spec section 4.1 steps 2, 3 and 5 as
plain field assignments. -/
def process_event (cfg : MgrCfg) (cur0 : Node) (event : WatchEvent) : EventOutcome :=
  let cur1 := { cur0 with name := event.node.name, startTime := event.node.startTime,
                          createTime := event.node.createTime }
  let newStatus := event.node.status
  let oldStatus := cur1.status
  let flowOpt := get_node_state_flow oldStatus event.eventType newStatus
  let cur2 := { cur1 with status := newStatus }
  match flowOpt with
  | none =>
    { node := cur2, firedCallback := none, relaunched := false, pendingRelaunchDelta := 0 }
  | some flow =>
    if flow.fromStatus = NodeStatus.succeeded then
      { node := cur2, firedCallback := none, relaunched := false, pendingRelaunchDelta := 0 }
    else
      let cur3 := { cur2 with exitReason := event.node.exitReason }
      let fired := dispatch_kind flow
      let sr := should_relaunch cfg cur3 flow
      { node := sr.2, firedCallback := fired, relaunched := sr.1,
        pendingRelaunchDelta := if sr.1 && cfg.waitPendingRelaunch then 1 else 0 }

/-- Folds process_event over a sequence of watch events addressed to one node. -/
def run_events (cfg : MgrCfg) (node : Node) (events : List WatchEvent) : Node :=
  events.foldl (fun n e => (process_event cfg n e).node) node

/-- The fleet map job_nodes of the NodeManager: a partial map from node type and id
to the live Node object. -/
def JobNodes : Type := NodeType → Nat → Option Node

/-- Pointwise update of the fleet map at one type and id pair. -/
def setNode (f : JobNodes) (t : NodeType) (i : Nat) (n : Node) : JobNodes :=
  fun u j => if u = t ∧ j = i then some n else f u j

/-- Embeds the first loop of NodeManager._process_list_nodes, node_manager.py lines
209 to 217: one mock event per listed node, DELETED for deleted snapshots and
MODIFIED otherwise, processed in list order. A listed node whose type and id are not
in job_nodes raises KeyError in the source; this is modelled as none. -/
def process_list_phase1 (cfg : MgrCfg) (f : JobNodes) : List Node → Option JobNodes
  | [] => some f
  | ln :: rest =>
    match f ln.type ln.id with
    | none => none
    | some cur =>
      let etype := if ln.status = NodeStatus.deleted then NodeEventType.deleted
                   else NodeEventType.modified
      let out := process_event cfg cur { eventType := etype, node := ln }
      process_list_phase1 cfg (setNode f ln.type ln.id out.node) rest

/-- The exist_pods entry of one type in NodeManager._process_list_nodes: the ids of
the listed nodes of that type. -/
def listed_ids (nodes : List Node) (t : NodeType) : List Nat :=
  (nodes.filter fun n => n.type == t).map fun n => n.id

/-- Embeds NodeManager._process_list_nodes, node_manager.py lines 204 to 231: the
mock events of the first loop, then the sweep that marks is_released on every node
that is neither INITIAL nor already released and whose id is absent from the listed
ids of its type. -/
def process_list_nodes (cfg : MgrCfg) (f : JobNodes) (nodes : List Node) : Option JobNodes :=
  (process_list_phase1 cfg f nodes).map fun g => fun t i =>
    (g t i).map fun n =>
      if n.status ≠ NodeStatus.initial ∧ n.isReleased = false ∧ i ∉ listed_ids nodes t
      then { n with isReleased := true } else n

/-- Per node resource request: cpu and memory, from spec section 3. -/
structure NodeResource where
  cpu : Nat
  memory : Nat
  deriving DecidableEq, Repr

/-- Declared group resource of one node type: count plus per node resource, from
spec section 3. -/
structure GroupResource where
  count : Nat
  nodeResource : NodeResource
  deriving DecidableEq, Repr

/-- Modelled from the spec: ScalePlan of base_scaler is not among the sources. Spec
section 3 gives launches, removals and ps_addrs, with merge as concatenate and
dedupe; node specs and refs are identified by name. -/
structure ScalePlan where
  launchNodes : List String
  removeNodes : List String
  psAddrs : List String
  deriving DecidableEq, Repr

/-- Modelled from the spec: a ScalePlan is empty when it carries no diff at all. -/
def ScalePlan.isEmptyPlan (p : ScalePlan) : Bool :=
  p.launchNodes.isEmpty && p.removeNodes.isEmpty && p.psAddrs.isEmpty

/-- Modelled from the spec: merge concatenates and dedupes, spec section 3. -/
def ScalePlan.merge (p q : ScalePlan) : ScalePlan :=
  { launchNodes := (p.launchNodes ++ q.launchNodes).dedup,
    removeNodes := (p.removeNodes ++ q.removeNodes).dedup,
    psAddrs := (p.psAddrs ++ q.psAddrs).dedup }

/-- The ScalePlan a fresh ScalePlan() constructor produces. -/
def ScalePlan.new : ScalePlan := { launchNodes := [], removeNodes := [], psAddrs := [] }

/-- Modelled from the spec: ResourcePlan of the resource optimizer is not among the
sources. Spec section 3: node_group_resources and node_resources maps, empty iff
both maps are empty; the dicts are modelled as association lists. -/
structure ResourcePlan where
  nodeGroupResources : List (NodeType × GroupResource)
  nodeResources : List (String × NodeResource)
  deriving DecidableEq, Repr

/-- Modelled from the spec: empty iff both maps are empty. -/
def ResourcePlan.isEmptyPlan (p : ResourcePlan) : Bool :=
  p.nodeGroupResources.isEmpty && p.nodeResources.isEmpty

/-- Modelled from the spec: JobResource.update_node_group_resource persists count,
cpu and memory of one node type, and get_node_group_resource reads the canonical
group back; the config is modelled as a total map from type to group. -/
def update_node_group_resource (jr : NodeType → GroupResource) (t : NodeType)
    (count cpu memory : Nat) : NodeType → GroupResource :=
  fun u => if u = t then { count := count, nodeResource := { cpu := cpu, memory := memory } }
           else jr u

/-- The scheduler facing name of a node type, as used in the type tag embedded in
node names. -/
def NodeType.str : NodeType → String
  | NodeType.ps => "ps"
  | NodeType.worker => "worker"
  | NodeType.chief => "chief"
  | NodeType.evaluator => "evaluator"
  | NodeType.tfMaster => "master"

/-- External collaborators of PSTrainingAutoScaler, passed as functions: the two
manager adjust primitives, the two migrate primitives, the current PS address list
and the chief count. -/
structure PSEnv where
  adjustPs : GroupResource → ScalePlan
  adjustWorker : GroupResource → ScalePlan
  migratePs : List (String × NodeResource) → ScalePlan
  migrateWorkers : List (String × NodeResource) → ScalePlan
  psAddrs : List String
  chiefNum : Nat

/-- Accumulator of the node_group_resources loop of the PS variant of
execute_job_optimization_plan, recording every external call. -/
structure PSExecState where
  jobResource : NodeType → GroupResource
  scalePlan : ScalePlan
  perfTargets : List Nat
  perfResets : Nat
  adjustPsCalls : List GroupResource
  adjustWorkerCalls : List GroupResource

/-- Embeds one iteration of the node_group_resources loop of
PSTrainingAutoScaler.execute_job_optimization_plan, job_auto_scaler.py lines 213 to
232: persist the group, re-read the canonical group, then adjust PS or workers. -/
def ps_exec_step (env : PSEnv) (st : PSExecState) (entry : NodeType × GroupResource) :
    PSExecState :=
  if entry.2.count > 0 then
    let jr := update_node_group_resource st.jobResource entry.1 entry.2.count
      entry.2.nodeResource.cpu entry.2.nodeResource.memory
    let group := jr entry.1
    if entry.1 = NodeType.ps then
      { st with jobResource := jr,
                scalePlan := st.scalePlan.merge (env.adjustPs group),
                perfResets := st.perfResets + 1,
                adjustPsCalls := st.adjustPsCalls ++ [group] }
    else if entry.1 = NodeType.worker then
      { st with jobResource := jr,
                scalePlan := st.scalePlan.merge (env.adjustWorker group),
                perfTargets := st.perfTargets ++ [env.chiefNum + group.count],
                adjustWorkerCalls := st.adjustWorkerCalls ++ [group] }
    else { st with jobResource := jr }
  else st

/-- The type tag embedded in a node name: the second to last dash separated part, as
read in PSTrainingAutoScaler._migrate_nodes, job_auto_scaler.py line 245. A name
with fewer than two parts raises in the source; it is modelled as none here. -/
def name_type_tag (name : String) : Option String :=
  let parts := name.splitOn "-"
  if parts.length ≥ 2 then parts[parts.length - 2]? else none

/-- Result record of PSTrainingAutoScaler._migrate_nodes: the migration plan, the
perf monitor resets and the manager call arguments. -/
structure MigrateResult where
  plan : ScalePlan
  perfResets : Nat
  migratePsCalls : List (List (String × NodeResource))
  migrateWorkerCalls : List (List (String × NodeResource))

/-- Embeds PSTrainingAutoScaler._migrate_nodes, job_auto_scaler.py lines 241 to 261:
partition the per node resources by the type tag of the name, migrate parameter
servers first, resetting the perf monitor, then migrate workers. -/
def migrate_nodes (env : PSEnv) (nrs : List (String × NodeResource)) : MigrateResult :=
  let workers := nrs.filter fun nr => name_type_tag nr.1 == some NodeType.worker.str
  let ps := nrs.filter fun nr => name_type_tag nr.1 == some NodeType.ps.str
  let r0 : MigrateResult :=
    { plan := ScalePlan.new, perfResets := 0, migratePsCalls := [], migrateWorkerCalls := [] }
  let r1 :=
    if ps.length > 0 then
      { r0 with plan := r0.plan.merge (env.migratePs ps), perfResets := r0.perfResets + 1,
                migratePsCalls := [ps] }
    else r0
  if workers.length > 0 then
    { r1 with plan := r1.plan.merge (env.migrateWorkers workers), migrateWorkerCalls := [workers] }
  else r1

/-- Observable result of the PS variant of execute_job_optimization_plan: the
returned scale plan, every Scaler.scale argument in order, the job resource config,
the perf monitor target and reset calls, and the manager call arguments. -/
structure PSExecResult where
  plan : ScalePlan
  scaleCalls : List ScalePlan
  jobResource : NodeType → GroupResource
  perfTargets : List Nat
  perfResets : Nat
  adjustPsCalls : List GroupResource
  adjustWorkerCalls : List GroupResource
  migratePsCalls : List (List (String × NodeResource))
  migrateWorkerCalls : List (List (String × NodeResource))

/-- The accumulator the group loop of the PS variant starts from: the current job
resource config and a fresh ScalePlan. -/
def ps_exec_initial_state (jr : NodeType → GroupResource) : PSExecState :=
  { jobResource := jr, scalePlan := ScalePlan.new, perfTargets := [], perfResets := 0,
    adjustPsCalls := [], adjustWorkerCalls := [] }

/-- The migration stage of the PS variant: _migrate_nodes runs only when
node_resources is non empty, job_auto_scaler.py lines 233 to 235. -/
def ps_exec_migration (env : PSEnv) (plan : ResourcePlan) : MigrateResult :=
  if plan.nodeResources.length > 0 then migrate_nodes env plan.nodeResources
  else { plan := ScalePlan.new, perfResets := 0, migratePsCalls := [],
         migrateWorkerCalls := [] }

/-- The scale plan the PS variant finally hands to the Scaler: the loop plan, the
migration plan merged in when migration ran, and ps_addrs extended with the current
PS address list, job_auto_scaler.py lines 233 to 237. -/
def ps_exec_scale_plan (env : PSEnv) (st : PSExecState) (mig : MigrateResult)
    (plan : ResourcePlan) : ScalePlan :=
  let sp := if plan.nodeResources.length > 0 then st.scalePlan.merge mig.plan
            else st.scalePlan
  { sp with psAddrs := sp.psAddrs ++ env.psAddrs }

/-- Embeds PSTrainingAutoScaler.execute_job_optimization_plan, job_auto_scaler.py
lines 204 to 239: return an empty plan without scaling when the resource plan is
null or empty; otherwise run the group loop, migrate when node_resources is non
empty, extend ps_addrs with the current PS address list, and hand the final plan to
the Scaler once. -/
def ps_execute_job_optimization_plan (env : PSEnv) (jr : NodeType → GroupResource)
    (planOpt : Option ResourcePlan) : PSExecResult :=
  match planOpt with
  | none =>
    { plan := ScalePlan.new, scaleCalls := [], jobResource := jr, perfTargets := [],
      perfResets := 0, adjustPsCalls := [], adjustWorkerCalls := [], migratePsCalls := [],
      migrateWorkerCalls := [] }
  | some plan =>
    if plan.isEmptyPlan then
      { plan := ScalePlan.new, scaleCalls := [], jobResource := jr, perfTargets := [],
        perfResets := 0, adjustPsCalls := [], adjustWorkerCalls := [], migratePsCalls := [],
        migrateWorkerCalls := [] }
    else
      let st := plan.nodeGroupResources.foldl (ps_exec_step env) (ps_exec_initial_state jr)
      let mig := ps_exec_migration env plan
      let final := ps_exec_scale_plan env st mig plan
      { plan := final, scaleCalls := [final], jobResource := st.jobResource,
        perfTargets := st.perfTargets, perfResets := st.perfResets + mig.perfResets,
        adjustPsCalls := st.adjustPsCalls, adjustWorkerCalls := st.adjustWorkerCalls,
        migratePsCalls := mig.migratePsCalls, migrateWorkerCalls := mig.migrateWorkerCalls }

/-- Embeds PSTrainingAutoScaler._reduce_timeout_pending_node_resource,
job_auto_scaler.py lines 263 to 273, with the plans the two managers return as
inputs: merge both, and attach the PS address list only when the merged plan is non
empty. -/
def reduce_timeout_pending_node_resource (psPlan workerPlan : ScalePlan)
    (psAddrs : List String) : ScalePlan :=
  let sp := (ScalePlan.new.merge psPlan).merge workerPlan
  if sp.isEmptyPlan = false then { sp with psAddrs := sp.psAddrs ++ psAddrs } else sp

/-- Embeds one iteration of PSTrainingAutoScaler.monitor_pending_node_at_begining,
job_auto_scaler.py lines 144 to 152: the Scaler.scale arguments of the iteration.
The source calls scale on the reduced plan unconditionally. -/
def monitor_pending_iteration_scale_calls (psPlan workerPlan : ScalePlan)
    (psAddrs : List String) : List ScalePlan :=
  [reduce_timeout_pending_node_resource psPlan workerPlan psAddrs]

/-- Embeds AllreduceTrainingAutoScaler._get_alive_worker_num, job_auto_scaler.py
lines 338 to 349. -/
def get_alive_worker_num (workers : List Node) : Nat :=
  workers.countP fun w =>
    [NodeStatus.running, NodeStatus.pending, NodeStatus.initial,
     NodeStatus.succeeded].contains w.status

/-- External collaborator of the AllReduce variant: the worker manager adjust
primitive. -/
structure AREnv where
  adjustWorker : GroupResource → ScalePlan

/-- Accumulator of the worker group loop of the AllReduce variant of
execute_job_optimization_plan. -/
structure ARExecState where
  jobResource : NodeType → GroupResource
  scalePlan : ScalePlan
  perfTargets : List Nat
  adjustWorkerCalls : List GroupResource

/-- Embeds one iteration of the group loop of
AllreduceTrainingAutoScaler.execute_job_optimization_plan, job_auto_scaler.py lines
360 to 373: every non worker type is skipped. -/
def ar_exec_step (env : AREnv) (st : ARExecState) (entry : NodeType × GroupResource) :
    ARExecState :=
  if entry.1 ≠ NodeType.worker then st
  else if entry.2.count > 0 then
    let jr := update_node_group_resource st.jobResource entry.1 entry.2.count
      entry.2.nodeResource.cpu entry.2.nodeResource.memory
    let group := jr entry.1
    { jobResource := jr, scalePlan := st.scalePlan.merge (env.adjustWorker group),
      perfTargets := st.perfTargets ++ [group.count],
      adjustWorkerCalls := st.adjustWorkerCalls ++ [group] }
  else st

/-- Observable result of the AllReduce variant of execute_job_optimization_plan. -/
structure ARExecResult where
  plan : ScalePlan
  scaleCalls : List ScalePlan
  jobResource : NodeType → GroupResource
  perfTargets : List Nat
  adjustWorkerCalls : List GroupResource

/-- Embeds AllreduceTrainingAutoScaler.execute_job_optimization_plan,
job_auto_scaler.py lines 351 to 375. -/
def ar_execute_job_optimization_plan (env : AREnv) (jr : NodeType → GroupResource)
    (planOpt : Option ResourcePlan) : ARExecResult :=
  match planOpt with
  | none =>
    { plan := ScalePlan.new, scaleCalls := [], jobResource := jr, perfTargets := [],
      adjustWorkerCalls := [] }
  | some plan =>
    if plan.isEmptyPlan then
      { plan := ScalePlan.new, scaleCalls := [], jobResource := jr, perfTargets := [],
        adjustWorkerCalls := [] }
    else
      let st := plan.nodeGroupResources.foldl (ar_exec_step env)
        { jobResource := jr, scalePlan := ScalePlan.new, perfTargets := [],
          adjustWorkerCalls := [] }
      { plan := st.scalePlan, scaleCalls := [st.scalePlan], jobResource := st.jobResource,
        perfTargets := st.perfTargets, adjustWorkerCalls := st.adjustWorkerCalls }

/-- Dict lookup in the node_group_resources of a resource plan. -/
def lookup_group (plan : ResourcePlan) (t : NodeType) : Option GroupResource :=
  (plan.nodeGroupResources.find? fun e => e.1 == t).map fun e => e.2

/-- Embeds the decision part of one iteration of
AllreduceTrainingAutoScaler._periodic_adjust_worker, job_auto_scaler.py lines 322 to
332: none when the plan proposes no more workers than are alive, or lacks a worker
group, which raises in the source and is swallowed by the loop. -/
def periodic_adjust_worker_iteration (env : AREnv) (jr : NodeType → GroupResource)
    (workers : List Node) (plan : ResourcePlan) : Option ARExecResult :=
  let alive := get_alive_worker_num workers
  match lookup_group plan NodeType.worker with
  | none => none
  | some g =>
    if g.count ≤ alive then none
    else some (ar_execute_job_optimization_plan env jr (some plan))

/-- The standard base64 alphabet used by the Python base64 module, RFC 4648. -/
def b64Alphabet : List Char :=
  "ABCDEFGHIJKLMNOPQRSTUVWXYZabcdefghijklmnopqrstuvwxyz0123456789+/".toList

/-- The character encoding one sextet value. -/
def b64Char (n : Nat) : Char := b64Alphabet.getD n '='

/-- The sextet value of one alphabet character. -/
def b64CharIndex (c : Char) : Nat := b64Alphabet.indexOf c

/-- The base64 encoding of a byte list, three bytes to four characters with padding,
as base64.b64encode performs it in BaseRequest.to_json and BaseResponse.to_json,
comm.py lines 120 and 140. -/
def b64encode : List Nat → List Char
  | [] => []
  | [a] => [b64Char (a / 4), b64Char (a % 4 * 16), '=', '=']
  | [a, b] => [b64Char (a / 4), b64Char (a % 4 * 16 + b / 16), b64Char (b % 16 * 4), '=']
  | a :: b :: c :: rest =>
    b64Char (a / 4) :: b64Char (a % 4 * 16 + b / 16) :: b64Char (b % 16 * 4 + c / 64)
      :: b64Char (c % 64) :: b64encode rest

/-- The base64 decoding of a character list, four characters to three bytes with
padding handling, as base64.b64decode performs it in BaseRequest.from_json and
BaseResponse.from_json, comm.py lines 128 and 147. -/
def b64decode : List Char → List Nat
  | c1 :: c2 :: c3 :: c4 :: rest =>
    let s1 := b64CharIndex c1
    let s2 := b64CharIndex c2
    if c3 = '=' then [s1 * 4 + s2 / 16]
    else
      let s3 := b64CharIndex c3
      if c4 = '=' then [s1 * 4 + s2 / 16, s2 % 16 * 16 + s3 / 4]
      else (s1 * 4 + s2 / 16) :: (s2 % 16 * 16 + s3 / 4)
        :: (s3 % 4 * 64 + b64CharIndex c4) :: b64decode rest
  | _ => []

/-- Every element of a Python bytes object is below 256. -/
def isBytes (l : List Nat) : Prop := ∀ x ∈ l, x < 256

instance (l : List Nat) : Decidable (isBytes l) := by
  unfold isBytes; infer_instance

/-- Embeds the dataclass BaseRequest, comm.py lines 110 to 129, with the bytes field
as a list of byte values. -/
structure BaseRequest where
  node_id : Int := -1
  node_type : String := ""
  data : List Nat := []
  deriving DecidableEq, Repr

/-- The JSON object BaseRequest.to_json produces: node_id and node_type verbatim and
data as a base64 string. -/
structure BaseRequestJson where
  node_id : Int
  node_type : String
  data : List Char
  deriving DecidableEq, Repr

/-- Embeds BaseRequest.to_json, comm.py lines 116 to 121. -/
def BaseRequest.to_json (r : BaseRequest) : BaseRequestJson :=
  { node_id := r.node_id, node_type := r.node_type, data := b64encode r.data }

/-- Embeds BaseRequest.from_json, comm.py lines 123 to 129. -/
def BaseRequest.from_json (j : BaseRequestJson) : BaseRequest :=
  { node_id := j.node_id, node_type := j.node_type, data := b64decode j.data }

/-- Embeds the dataclass BaseResponse, comm.py lines 132 to 148. -/
structure BaseResponse where
  success : Bool := false
  data : List Nat := []
  deriving DecidableEq, Repr

/-- The JSON object BaseResponse.to_json produces. -/
structure BaseResponseJson where
  success : Bool
  data : List Char
  deriving DecidableEq, Repr

/-- Embeds BaseResponse.to_json, comm.py lines 137 to 141. -/
def BaseResponse.to_json (s : BaseResponse) : BaseResponseJson :=
  { success := s.success, data := b64encode s.data }

/-- Embeds BaseResponse.from_json, comm.py lines 143 to 148; the bool coercion on a
JSON boolean is the identity. -/
def BaseResponse.from_json (j : BaseResponseJson) : BaseResponse :=
  { success := j.success, data := b64decode j.data }

/-- Distribution strategies of the constants module, spec section 6. -/
inductive DistributionStrategy where
  | parameterServer
  | allreduce
  | custom
  | localSingle
  deriving DecidableEq, Repr

/-- The argument object consumed by create_node_manager, with the fields the factory
reads; defaults follow MockArgs of test_node_manager.py where given. -/
structure Args where
  jobName : String := "test"
  nspace : String := "test"
  distributionStrategy : DistributionStrategy := DistributionStrategy.parameterServer
  relaunchOnWorkerFailure : Nat := 1
  numWorkers : Nat := 3
  workerResourceRequest : String := "cpu=1,memory=4096Mi"
  workerPodPriority : String := ""
  numPsPods : Nat := 3
  psResourceRequest : String := "cpu=1,memory=4096Mi"
  psPodPriority : String := ""
  numEvaluators : Nat := 1
  evaluatorResourceRequest : String := "cpu=1,memory=4096Mi"
  evaluatorPodPriority : String := ""
  numTfMaster : Nat := 3
  tfMasterResourceRequest : String := "cpu=1,memory=4096Mi"
  tfMasterPodPriority : String := ""
  psIsCritical : Bool := true
  psRelaunchMaxNum : Nat := 1
  useDdp : Bool := false
  criticalWorkerIndex : String := "0:3"
  deriving DecidableEq, Repr

/-- Modelled from the spec: get_critical_worker_index of job_config is not among the
sources. Spec section 3: the literal default resolves to the chief only map, all
makes every worker critical with max one, and the pair syntax idx:count/idx:count
gives an explicit map, matching the expectations of test_node_manager.py. -/
def get_critical_worker_index (args : Args) : List (Nat × Nat) :=
  if args.criticalWorkerIndex = "default" then [(0, 1)]
  else if args.criticalWorkerIndex = "all" then
    (List.range args.numWorkers).map fun i => (i, 1)
  else
    (args.criticalWorkerIndex.splitOn "/").map fun pair =>
      match pair.splitOn ":" with
      | [i, c] => (i.toNat?.getD 0, c.toNat?.getD 0)
      | _ => (0, 0)

/-- The _MAX_POD_RELAUNCH_COUNT constant, node_manager.py line 44. -/
def MAX_POD_RELAUNCH_COUNT : Nat := 5

/-- The NodeManager constructor arguments create_node_manager assembles, after the
min clamps the NodeManager constructor applies. -/
structure NodeManagerCfg where
  jobResource : List (NodeType × Nat × String × String)
  jobName : String
  nspace : String
  relaunchOnWorkerFailure : Nat
  psIsCritical : Bool
  criticalWorkerIndex : List (Nat × Nat)
  waitPendingRelaunch : Bool
  psRelaunchMaxNum : Nat
  useDdp : Bool
  deriving DecidableEq, Repr

/-- Embeds create_node_manager, node_manager.py lines 47 to 108, together with the
min clamps of the NodeManager constructor, lines 125 to 135: strategies other than
PARAMETER_SERVER and CUSTOM override relaunch_on_worker_failure to zero before the
manager is constructed. -/
def create_node_manager (args : Args) : NodeManagerCfg :=
  let relaunchOnWorkerFailure :=
    if args.distributionStrategy ≠ DistributionStrategy.parameterServer
        ∧ args.distributionStrategy ≠ DistributionStrategy.custom
    then 0 else args.relaunchOnWorkerFailure
  let evaluatorPodPriority :=
    if args.evaluatorPodPriority = "low" then args.evaluatorPodPriority else "high"
  let jobResource := [
    (NodeType.worker, args.numWorkers, args.workerResourceRequest, args.workerPodPriority),
    (NodeType.ps, args.numPsPods, args.psResourceRequest, args.psPodPriority),
    (NodeType.evaluator, args.numEvaluators, args.evaluatorResourceRequest,
      evaluatorPodPriority),
    (NodeType.tfMaster, args.numTfMaster, args.tfMasterResourceRequest,
      args.tfMasterPodPriority)]
  { jobResource := jobResource,
    jobName := args.jobName,
    nspace := args.nspace,
    relaunchOnWorkerFailure := min relaunchOnWorkerFailure MAX_POD_RELAUNCH_COUNT,
    psIsCritical := args.psIsCritical,
    criticalWorkerIndex := get_critical_worker_index args,
    waitPendingRelaunch := args.distributionStrategy == DistributionStrategy.custom,
    psRelaunchMaxNum := min args.psRelaunchMaxNum MAX_POD_RELAUNCH_COUNT,
    useDdp := args.useDdp }

/-- Modelled from the spec: init_job_node_meta of job_config is not among the
sources. Spec sections 3 and 4.1: a fresh worker starts INITIAL and relaunchable,
with the relaunch budget the manager was constructed with. -/
def init_worker_node (relaunchOnWorkerFailure : Nat) (i : Nat) : Node :=
  { type := NodeType.worker, id := i, status := NodeStatus.initial,
    maxRelaunchCount := relaunchOnWorkerFailure }

/-! Theorems. -/

/-- C2: NodeManager._should_relaunch implements exactly the decision procedure the
claim describes: the start condition, the FATAL_ERROR, OOM, KILLED and generic exit
reason branches, and the increment on every true decision. -/
theorem c2_should_relaunch_matches_claim (cfg : MgrCfg) (node : Node)
    (flow : NodeStateFlow) :
    should_relaunch cfg node flow = should_relaunch_claim cfg node flow := by
  unfold should_relaunch should_relaunch_claim
  by_cases h0 : (flow.shouldRelaunch && cfg.relaunchPod && node.relaunchable) = true
  · cases hex : node.exitReason <;> simp [h0, hex] <;> split_ifs <;> simp_all <;> omega
  · simp [h0]

/-- C4: the callback dispatch of NodeManager._process_node_events agrees with the
mapping of spec section 4.2 on every flow, and the dispatched kind is fanned out to
every registered callback. -/
theorem c4_callback_dispatch_matches_claim (flow : NodeStateFlow)
    (callbacks : List String) :
    dispatch_kind flow = dispatch_kind_claim flow
    ∧ process_node_events flow callbacks =
        (match dispatch_kind_claim flow with
         | some k => callbacks.map fun c => (c, k)
         | none => []) := by
  have h : dispatch_kind flow = dispatch_kind_claim flow := by
    unfold dispatch_kind dispatch_kind_claim
    cases h1 : flow.toStatus <;> cases h2 : flow.fromStatus <;> simp [h1, h2]
  refine ⟨h, ?_⟩
  unfold process_node_events
  rw [h]

lemma b64CharIndex_b64Char {n : Nat} (h : n < 64) : b64CharIndex (b64Char n) = n := by
  have hall : ∀ m : Fin 64, b64CharIndex (b64Char m.val) = m.val := by decide
  exact hall ⟨n, h⟩

lemma b64Char_ne_pad {n : Nat} (h : n < 64) : b64Char n ≠ '=' := by
  have hall : ∀ m : Fin 64, b64Char m.val ≠ '=' := by decide
  exact hall ⟨n, h⟩

lemma b64decode_b64encode (l : List Nat) (h : isBytes l) :
    b64decode (b64encode l) = l := by
  induction l using b64encode.induct with
  | case1 => rfl
  | case2 a =>
    have ha : a < 256 := h a (by simp)
    have h1 : a / 4 < 64 := by omega
    have h2 : a % 4 * 16 < 64 := by omega
    simp only [b64encode, b64decode]
    rw [if_pos trivial, b64CharIndex_b64Char h1, b64CharIndex_b64Char h2]
    have : a / 4 * 4 + a % 4 * 16 / 16 = a := by omega
    rw [this]
  | case3 a b =>
    have ha : a < 256 := h a (by simp)
    have hb : b < 256 := h b (by simp)
    have h1 : a / 4 < 64 := by omega
    have h2 : a % 4 * 16 + b / 16 < 64 := by omega
    have h3 : b % 16 * 4 < 64 := by omega
    simp only [b64encode, b64decode]
    rw [if_neg (b64Char_ne_pad h3), if_pos trivial, b64CharIndex_b64Char h1,
      b64CharIndex_b64Char h2, b64CharIndex_b64Char h3]
    have e1 : a / 4 * 4 + (a % 4 * 16 + b / 16) / 16 = a := by omega
    have e2 : (a % 4 * 16 + b / 16) % 16 * 16 + b % 16 * 4 / 4 = b := by omega
    rw [e1, e2]
  | case4 a b c rest ih =>
    have ha : a < 256 := h a (by simp)
    have hb : b < 256 := h b (by simp)
    have hc : c < 256 := h c (by simp)
    have hrest : isBytes rest := fun x hx => h x (by simp [hx])
    have h1 : a / 4 < 64 := by omega
    have h2 : a % 4 * 16 + b / 16 < 64 := by omega
    have h3 : b % 16 * 4 + c / 64 < 64 := by omega
    have h4 : c % 64 < 64 := by omega
    simp only [b64encode, b64decode]
    rw [if_neg (b64Char_ne_pad h3), if_neg (b64Char_ne_pad h4),
      b64CharIndex_b64Char h1, b64CharIndex_b64Char h2, b64CharIndex_b64Char h3,
      b64CharIndex_b64Char h4, ih hrest]
    have e1 : a / 4 * 4 + (a % 4 * 16 + b / 16) / 16 = a := by omega
    have e2 : (a % 4 * 16 + b / 16) % 16 * 16 + (b % 16 * 4 + c / 64) / 4 = b := by omega
    have e3 : (b % 16 * 4 + c / 64) % 4 * 64 + c % 64 = c := by omega
    rw [e1, e2, e3]

/-- C9: BaseRequest and BaseResponse round trip through their JSON forms, the bytes
field carried through base64 encoding and decoding unchanged. -/
theorem c9_json_roundtrip (r : BaseRequest) (s : BaseResponse)
    (hr : isBytes r.data) (hs : isBytes s.data) :
    BaseRequest.from_json (BaseRequest.to_json r) = r
    ∧ BaseResponse.from_json (BaseResponse.to_json s) = s := by
  constructor
  · unfold BaseRequest.from_json BaseRequest.to_json
    rw [b64decode_b64encode r.data hr]
  · unfold BaseResponse.from_json BaseResponse.to_json
    rw [b64decode_b64encode s.data hs]

/-- Witness for C9 at a concrete request and response carrying bytes that exercise
base64 padding. -/
theorem c9_json_roundtrip_witness :
    BaseRequest.from_json (BaseRequest.to_json
        { node_id := 1, node_type := "worker", data := [0, 255, 16, 128, 7] })
      = { node_id := 1, node_type := "worker", data := [0, 255, 16, 128, 7] }
    ∧ BaseResponse.from_json (BaseResponse.to_json { success := true, data := [9, 200] })
      = { success := true, data := [9, 200] } :=
  c9_json_roundtrip _ _ (by decide) (by decide)

lemma should_relaunch_preserves (cfg : MgrCfg) (node : Node) (flow : NodeStateFlow) :
    (should_relaunch cfg node flow).2.status = node.status
    ∧ (should_relaunch cfg node flow).2.exitReason = node.exitReason
    ∧ (should_relaunch cfg node flow).2.maxRelaunchCount = node.maxRelaunchCount
    ∧ (should_relaunch cfg node flow).2.isReleased = node.isReleased := by
  unfold should_relaunch
  dsimp only
  split_ifs <;> simp

lemma should_relaunch_count_bound (cfg : MgrCfg) (node : Node) (flow : NodeStateFlow)
    (hk : node.exitReason ≠ NodeExitReason.killed)
    (h : node.relaunchCount ≤ node.maxRelaunchCount + 1) :
    (should_relaunch cfg node flow).2.relaunchCount
      ≤ (should_relaunch cfg node flow).2.maxRelaunchCount + 1 := by
  unfold should_relaunch
  dsimp only
  split_ifs <;> simp_all <;> omega

lemma process_event_count_bound (cfg : MgrCfg) (cur : Node) (event : WatchEvent)
    (hk : event.node.exitReason ≠ NodeExitReason.killed)
    (h : cur.relaunchCount ≤ cur.maxRelaunchCount + 1) :
    (process_event cfg cur event).node.relaunchCount
      ≤ (process_event cfg cur event).node.maxRelaunchCount + 1 := by
  unfold process_event
  dsimp only
  split
  · simpa using h
  · split
    · simpa using h
    · exact should_relaunch_count_bound cfg _ _ hk h

/-- C1 amended: over any sequence of processed events in which no event carries exit
reason KILLED, relaunch_count stays at most max_relaunch_count plus one, both
immediately after each decision and at rest, starting from any node within that
bound. The original claim fails for KILLED, and the at rest bound is also only
max_relaunch_count plus one, since a generic failure at the budget boundary
increments to that value and nothing decrements it. -/
theorem c1_relaunch_count_bounded_without_killed (cfg : MgrCfg) (node : Node)
    (events : List WatchEvent)
    (hk : ∀ e ∈ events, e.node.exitReason ≠ NodeExitReason.killed)
    (h0 : node.relaunchCount ≤ node.maxRelaunchCount + 1) :
    (run_events cfg node events).relaunchCount
      ≤ (run_events cfg node events).maxRelaunchCount + 1 := by
  induction events generalizing node with
  | nil => simpa [run_events] using h0
  | cons e rest ih =>
    simp only [run_events, List.foldl_cons]
    exact ih _ (fun x hx => hk x (List.mem_cons_of_mem _ hx))
      (process_event_count_bound cfg node e (hk e (List.mem_cons_self _ _)) h0)

/-- Witness for C1 at one generic failure event on a zero budget worker. -/
theorem c1_relaunch_count_bounded_without_killed_witness :
    (run_events { maxMemory := 1000, relaunchPod := true, waitPendingRelaunch := false }
        { type := NodeType.worker, status := NodeStatus.running }
        [{ eventType := NodeEventType.modified,
           node := { type := NodeType.worker, status := NodeStatus.failed,
                     exitReason := NodeExitReason.unknown } }]).relaunchCount
      ≤ (run_events { maxMemory := 1000, relaunchPod := true, waitPendingRelaunch := false }
          { type := NodeType.worker, status := NodeStatus.running }
          [{ eventType := NodeEventType.modified,
             node := { type := NodeType.worker, status := NodeStatus.failed,
                       exitReason := NodeExitReason.unknown } }]).maxRelaunchCount + 1 :=
  c1_relaunch_count_bounded_without_killed _ _ _ (by decide) (by decide)

/-- Concrete C1 counterexample inputs: a zero budget running worker, a KILLED
failure event and an event that flips the observed status back to running, which
the source applies even though the state flow lookup is none. -/
def c1Cfg : MgrCfg := { maxMemory := 1000, relaunchPod := true, waitPendingRelaunch := false }

def c1Start : Node := { type := NodeType.worker, status := NodeStatus.running }

def c1KilledFail : WatchEvent :=
  { eventType := NodeEventType.modified,
    node := { type := NodeType.worker, status := NodeStatus.failed,
              exitReason := NodeExitReason.killed } }

def c1BackToRunning : WatchEvent :=
  { eventType := NodeEventType.modified,
    node := { type := NodeType.worker, status := NodeStatus.running } }

def c1Events : List WatchEvent :=
  [c1KilledFail, c1BackToRunning, c1KilledFail, c1BackToRunning, c1KilledFail]

/-- C1 as stated is false on the code: three KILLED failures on a worker with
max_relaunch_count zero drive relaunch_count to three, beyond the claimed bound of
max_relaunch_count plus one, because the KILLED branch of _should_relaunch skips
the budget check. -/
theorem c1_killed_budget_counterexample :
    ¬ ((run_events c1Cfg c1Start c1Events).relaunchCount
        ≤ (run_events c1Cfg c1Start c1Events).maxRelaunchCount + 1) := by decide

lemma get_node_state_flow_fromStatus {old : NodeStatus} {e : NodeEventType}
    {new : NodeStatus} {f : NodeStateFlow}
    (h : get_node_state_flow old e new = some f) : f.fromStatus = old := by
  unfold get_node_state_flow at h
  have hp := List.find?_some h
  simp only [Bool.and_eq_true, beq_iff_eq] at hp
  exact hp.1.1

/-- C3: _process_event always records the event status on the node, even when the
state flow lookup returns none; when the lookup is none or the flow leaves
SUCCEEDED, no callback fires, no exit reason is recorded, no relaunch is decided
and the pending relaunch counter is untouched; in particular a transition out of
SUCCEEDED never causes a relaunch. -/
theorem c3_process_event_frame (cfg : MgrCfg) (cur : Node) (event : WatchEvent) :
    (process_event cfg cur event).node.status = event.node.status
    ∧ ((get_node_state_flow cur.status event.eventType event.node.status = none
        ∨ (∃ f, get_node_state_flow cur.status event.eventType event.node.status = some f
            ∧ f.fromStatus = NodeStatus.succeeded)) →
        (process_event cfg cur event).firedCallback = none
        ∧ (process_event cfg cur event).relaunched = false
        ∧ (process_event cfg cur event).pendingRelaunchDelta = 0
        ∧ (process_event cfg cur event).node.exitReason = cur.exitReason)
    ∧ (cur.status = NodeStatus.succeeded → (process_event cfg cur event).relaunched = false) := by
  unfold process_event
  dsimp only
  refine ⟨?_, ?_, ?_⟩
  · split
    · rfl
    · split
      · rfl
      · exact (should_relaunch_preserves cfg _ _).1
  · intro hcase
    split
    · exact ⟨rfl, rfl, rfl, rfl⟩
    · rename_i f hf
      rcases hcase with hnone | ⟨f2, hf2, hsucc⟩
      · rw [hnone] at hf; cases hf
      · rw [hf2] at hf
        injection hf with hf
        subst hf
        rw [if_pos hsucc]
        exact ⟨rfl, rfl, rfl, rfl⟩
  · intro hsucc
    split
    · rfl
    · rename_i f hf
      have := get_node_state_flow_fromStatus hf
      rw [if_pos (this.trans hsucc)]

/-- Witness for C3 at an event whose transition has no matching flow row: observed
status moves to running while nothing else happens. -/
theorem c3_process_event_frame_witness :
    (process_event { maxMemory := 1000, relaunchPod := true, waitPendingRelaunch := false }
        { type := NodeType.worker, status := NodeStatus.running }
        { eventType := NodeEventType.modified,
          node := { type := NodeType.worker, status := NodeStatus.running } }).firedCallback
      = none
    ∧ (process_event { maxMemory := 1000, relaunchPod := true, waitPendingRelaunch := false }
        { type := NodeType.worker, status := NodeStatus.running }
        { eventType := NodeEventType.modified,
          node := { type := NodeType.worker, status := NodeStatus.running } }).relaunched
      = false :=
  let h := (c3_process_event_frame
    { maxMemory := 1000, relaunchPod := true, waitPendingRelaunch := false }
    { type := NodeType.worker, status := NodeStatus.running }
    { eventType := NodeEventType.modified,
      node := { type := NodeType.worker, status := NodeStatus.running } }).2.1
    (Or.inl (by decide))
  ⟨h.1, h.2.1⟩

lemma process_event_isReleased (cfg : MgrCfg) (cur : Node) (event : WatchEvent) :
    (process_event cfg cur event).node.isReleased = cur.isReleased := by
  unfold process_event
  dsimp only
  split
  · rfl
  · split
    · rfl
    · exact (should_relaunch_preserves cfg _ _).2.2.2

lemma process_list_phase1_frame (cfg : MgrCfg) :
    ∀ (l : List Node) (f g : JobNodes), process_list_phase1 cfg f l = some g →
      ∀ t i, (∀ ln ∈ l, ¬(ln.type = t ∧ ln.id = i)) → g t i = f t i := by
  intro l
  induction l with
  | nil =>
    intro f g h t i _
    unfold process_list_phase1 at h
    injection h with h
    rw [h]
  | cons ln rest ih =>
    intro f g h t i habs
    unfold process_list_phase1 at h
    cases hcur : f ln.type ln.id with
    | none => rw [hcur] at h; cases h
    | some cur =>
      rw [hcur] at h
      have hrest := ih _ _ h t i fun x hx => habs x (List.mem_cons_of_mem _ hx)
      rw [hrest]
      unfold setNode
      have hne : ¬(t = ln.type ∧ i = ln.id) := by
        intro hti
        exact habs ln (List.mem_cons_self _ _) ⟨hti.1.symm, hti.2.symm⟩
      rw [if_neg hne]

lemma process_list_phase1_isReleased (cfg : MgrCfg) :
    ∀ (l : List Node) (f g : JobNodes), process_list_phase1 cfg f l = some g →
      ∀ t i, (g t i).map Node.isReleased = (f t i).map Node.isReleased := by
  intro l
  induction l with
  | nil =>
    intro f g h t i
    unfold process_list_phase1 at h
    injection h with h
    rw [h]
  | cons ln rest ih =>
    intro f g h t i
    unfold process_list_phase1 at h
    cases hcur : f ln.type ln.id with
    | none => rw [hcur] at h; cases h
    | some cur =>
      rw [hcur] at h
      have hrest := ih _ _ h t i
      rw [hrest]
      unfold setNode
      by_cases hti : t = ln.type ∧ i = ln.id
      · rw [if_pos hti, hti.1, hti.2, hcur]
        simp [process_event_isReleased]
      · rw [if_neg hti]

lemma listed_ids_absent {nodes : List Node} {t : NodeType} {i : Nat}
    (h : i ∉ listed_ids nodes t) : ∀ ln ∈ nodes, ¬(ln.type = t ∧ ln.id = i) := by
  intro ln hln hti
  apply h
  unfold listed_ids
  refine List.mem_map.mpr ⟨ln, ?_, hti.2⟩
  refine List.mem_filter.mpr ⟨hln, ?_⟩
  simp [hti.1]

/-- C5: during _process_list_nodes, every node that is neither INITIAL nor already
released and whose id is absent from the listed ids of its type is marked released;
an already released or INITIAL absent node is returned unchanged, and the released
flag of every node that does appear in the bulk list is unchanged. -/
theorem c5_missing_node_marked_released (cfg : MgrCfg) (f g : JobNodes)
    (nodes : List Node) (h : process_list_nodes cfg f nodes = some g) :
    (∀ t i n, f t i = some n → i ∉ listed_ids nodes t →
      (n.status ≠ NodeStatus.initial → n.isReleased = false →
        g t i = some { n with isReleased := true })
      ∧ (n.isReleased = true → g t i = some n)
      ∧ (n.status = NodeStatus.initial → g t i = some n))
    ∧ (∀ t i, i ∈ listed_ids nodes t →
        (g t i).map Node.isReleased = (f t i).map Node.isReleased) := by
  unfold process_list_nodes at h
  cases hp : process_list_phase1 cfg f nodes with
  | none => rw [hp] at h; cases h
  | some g1 =>
    rw [hp] at h
    injection h with h
    subst h
    dsimp only
    constructor
    · intro t i n hn habs
      have h1 : g1 t i = f t i :=
        process_list_phase1_frame cfg nodes f g1 hp t i (listed_ids_absent habs)
      rw [h1, hn]
      refine ⟨?_, ?_, ?_⟩
      · intro hstat hrel
        simp only [Option.map_some']
        rw [if_pos ⟨hstat, hrel, habs⟩]
      · intro hrel
        simp only [Option.map_some']
        rw [if_neg]
        intro hcond
        rw [hrel] at hcond
        exact absurd hcond.2.1 (by simp)
      · intro hstat
        simp only [Option.map_some']
        rw [if_neg]
        intro hcond
        exact hcond.1 hstat
    · intro t i hmem
      have h1 := process_list_phase1_isReleased cfg nodes f g1 hp t i
      rw [← h1]
      cases hg : g1 t i with
      | none => rfl
      | some n =>
        simp only [Option.map_some']
        rw [if_neg]
        intro hcond
        exact hcond.2.2 hmem

/-- Concrete C5 witness inputs: a fleet holding one running PS node and a bulk list
that omits it. -/
def c5Cfg : MgrCfg := { maxMemory := 1000, relaunchPod := true, waitPendingRelaunch := false }

def c5Node : Node := { type := NodeType.ps, id := 0, status := NodeStatus.running }

def c5Fleet : JobNodes := fun t i =>
  if t = NodeType.ps ∧ i = 0 then some c5Node else none

def c5After : JobNodes := fun t i =>
  (c5Fleet t i).map fun n =>
    if n.status ≠ NodeStatus.initial ∧ n.isReleased = false ∧ i ∉ listed_ids [] t
    then { n with isReleased := true } else n

/-- Witness for C5: the running PS node absent from an empty bulk list is marked
released. -/
theorem c5_missing_node_marked_released_witness :
    c5After NodeType.ps 0 = some { c5Node with isReleased := true } :=
  ((c5_missing_node_marked_released c5Cfg c5Fleet c5After [] rfl).1
    NodeType.ps 0 c5Node rfl (by decide)).1 (by decide) rfl

/-- C6 as stated is false on the code: one iteration of the pending node monitor of
the PS auto-scaler hands the reduced plan to Scaler.scale unconditionally, so when
both managers return empty plans the Scaler receives an empty ScalePlan. -/
theorem c6_pending_monitor_scales_empty_plan_counterexample :
    monitor_pending_iteration_scale_calls ScalePlan.new ScalePlan.new []
      = [ScalePlan.new]
    ∧ ScalePlan.new.isEmptyPlan = true := by
  constructor
  · rfl
  · rfl

/-- C6 amended: execute_job_optimization_plan of the PS variant called with a null
or empty ResourcePlan returns an empty ScalePlan without invoking the Scaler; the
pending node monitor however invokes Scaler.scale on every iteration with whatever
plan results, including an empty one. -/
theorem c6_empty_plan_returns_empty_without_scaler (env : PSEnv)
    (jr : NodeType → GroupResource) (planOpt : Option ResourcePlan)
    (h : planOpt = none
      ∨ (∃ p, planOpt = some p ∧ p.isEmptyPlan = true)) :
    (ps_execute_job_optimization_plan env jr planOpt).plan.isEmptyPlan = true
    ∧ (ps_execute_job_optimization_plan env jr planOpt).scaleCalls = [] := by
  rcases h with h | ⟨p, hp, hemp⟩
  · subst h
    exact ⟨rfl, rfl⟩
  · subst hp
    unfold ps_execute_job_optimization_plan
    dsimp only
    rw [if_pos hemp]
    exact ⟨rfl, rfl⟩

/-- A PS auto-scaler environment whose managers return empty plans, used by concrete
witnesses. -/
def trivialPSEnv : PSEnv :=
  { adjustPs := fun _ => ScalePlan.new, adjustWorker := fun _ => ScalePlan.new,
    migratePs := fun _ => ScalePlan.new, migrateWorkers := fun _ => ScalePlan.new,
    psAddrs := [], chiefNum := 0 }

/-- A job resource config with empty groups, used by concrete witnesses. -/
def zeroJobResource : NodeType → GroupResource :=
  fun _ => { count := 0, nodeResource := { cpu := 0, memory := 0 } }

/-- Witness for C6 at a null resource plan. -/
theorem c6_empty_plan_returns_empty_without_scaler_witness :
    (ps_execute_job_optimization_plan trivialPSEnv zeroJobResource none).plan.isEmptyPlan
      = true
    ∧ (ps_execute_job_optimization_plan trivialPSEnv zeroJobResource none).scaleCalls = [] :=
  c6_empty_plan_returns_empty_without_scaler trivialPSEnv zeroJobResource none (Or.inl rfl)

/-- The filter predicate selecting the entries of one node type with positive count,
as both group loops act on them: dict semantics give at most one entry per type. -/
def group_pos (t : NodeType) (e : NodeType × GroupResource) : Bool :=
  e.1 == t && decide (0 < e.2.count)

lemma filter_group_pos_nil {entries : List (NodeType × GroupResource)} {t : NodeType}
    (h : t ∉ entries.map Prod.fst) : entries.filter (group_pos t) = [] := by
  refine List.filter_eq_nil_iff.mpr ?_
  intro e he
  unfold group_pos
  have : e.1 ≠ t := fun heq => h (heq ▸ List.mem_map_of_mem Prod.fst he)
  simp [this]

lemma filter_group_pos_of_nodup {entries : List (NodeType × GroupResource)}
    {t : NodeType} {g : GroupResource} (hnd : (entries.map Prod.fst).Nodup)
    (hmem : (t, g) ∈ entries) (hpos : 0 < g.count) :
    entries.filter (group_pos t) = [(t, g)] := by
  induction entries with
  | nil => cases hmem
  | cons e rest ih =>
    rw [List.map_cons, List.nodup_cons] at hnd
    rcases List.mem_cons.mp hmem with heq | hmem2
    · subst heq
      have h1 : group_pos t (t, g) = true := by
        unfold group_pos
        simp [hpos]
      rw [List.filter_cons_of_pos h1, filter_group_pos_nil hnd.1]
    · have hne : e.1 ≠ t := by
        intro heq
        exact hnd.1 (heq ▸ List.mem_map_of_mem Prod.fst hmem2)
      have h1 : group_pos t e = false := by
        unfold group_pos
        simp [hne]
      rw [List.filter_cons_of_neg (by simp [h1]), ih hnd.2 hmem2]

lemma ar_exec_step_cases (env : AREnv) (st : ARExecState) (e : NodeType × GroupResource) :
    (group_pos NodeType.worker e = false → ar_exec_step env st e = st)
    ∧ (group_pos NodeType.worker e = true →
        ar_exec_step env st e =
          { jobResource := update_node_group_resource st.jobResource e.1 e.2.count
              e.2.nodeResource.cpu e.2.nodeResource.memory,
            scalePlan := (st.scalePlan.merge
              (env.adjustWorker { count := e.2.count, nodeResource := e.2.nodeResource })),
            perfTargets := st.perfTargets ++ [e.2.count],
            adjustWorkerCalls := (st.adjustWorkerCalls
              ++ [{ count := e.2.count, nodeResource := e.2.nodeResource }]) }) := by
  constructor
  · intro h
    unfold ar_exec_step
    by_cases he : e.1 = NodeType.worker
    · have hc : ¬ (e.2.count > 0) := by
        unfold group_pos at h
        rcases Bool.and_eq_false_iff.mp h with h1 | h1
        · exact absurd he (by simpa using h1)
        · simpa using h1
      rw [if_neg (by simp [he]), if_neg hc]
    · rw [if_pos he]
  · intro h
    unfold group_pos at h
    rw [Bool.and_eq_true] at h
    have he1 : e.1 = NodeType.worker := by simpa using h.1
    have he2 : e.2.count > 0 := by simpa using h.2
    unfold ar_exec_step
    rw [if_neg (by simp [he1]), if_pos he2]
    unfold update_node_group_resource
    dsimp only
    rw [if_pos rfl]

lemma ar_fold_fields (env : AREnv) :
    ∀ (entries : List (NodeType × GroupResource)) (st : ARExecState),
      (entries.foldl (ar_exec_step env) st).perfTargets
        = st.perfTargets ++ (entries.filter (group_pos NodeType.worker)).map
            (fun e => e.2.count)
      ∧ (entries.foldl (ar_exec_step env) st).adjustWorkerCalls
        = st.adjustWorkerCalls ++ (entries.filter (group_pos NodeType.worker)).map
            (fun e => { count := e.2.count, nodeResource := e.2.nodeResource })
      ∧ (∀ t, t ≠ NodeType.worker →
          (entries.foldl (ar_exec_step env) st).jobResource t = st.jobResource t) := by
  intro entries
  induction entries with
  | nil => intro st; simp
  | cons e rest ih =>
    intro st
    rw [List.foldl_cons]
    by_cases h : group_pos NodeType.worker e = true
    · have hstep := (ar_exec_step_cases env st e).2 h
      have he1 : e.1 = NodeType.worker := by
        unfold group_pos at h
        rw [Bool.and_eq_true] at h
        simpa using h.1
      refine ⟨?_, ?_, ?_⟩
      · rw [(ih _).1, hstep, List.filter_cons_of_pos h]
        simp
      · rw [(ih _).2.1, hstep, List.filter_cons_of_pos h]
        simp
      · intro t ht
        rw [(ih _).2.2 t ht, hstep]
        unfold update_node_group_resource
        dsimp only
        rw [if_neg (by rw [he1]; exact ht)]
    · have hstep := (ar_exec_step_cases env st e).1 (by simpa using h)
      rw [hstep, List.filter_cons_of_neg (by simpa using h)]
      exact ih st

lemma ar_fold_jobResource_worker (env : AREnv) :
    ∀ (entries : List (NodeType × GroupResource)) (st : ARExecState) (g : GroupResource),
      entries.filter (group_pos NodeType.worker) = [(NodeType.worker, g)] →
      (entries.foldl (ar_exec_step env) st).jobResource NodeType.worker
        = { count := g.count, nodeResource := g.nodeResource } := by
  have hnilcase : ∀ (entries : List (NodeType × GroupResource)) (st : ARExecState),
      entries.filter (group_pos NodeType.worker) = [] →
      (entries.foldl (ar_exec_step env) st).jobResource NodeType.worker
        = st.jobResource NodeType.worker := by
    intro entries
    induction entries with
    | nil => intro st _; rfl
    | cons e rest ih =>
      intro st hfil
      by_cases h : group_pos NodeType.worker e = true
      · rw [List.filter_cons_of_pos h] at hfil
        cases hfil
      · rw [List.filter_cons_of_neg (by simpa using h)] at hfil
        rw [List.foldl_cons, (ar_exec_step_cases env st e).1 (by simpa using h)]
        exact ih st hfil
  intro entries
  induction entries with
  | nil => intro st g hfil; cases hfil
  | cons e rest ih =>
    intro st g hfil
    by_cases h : group_pos NodeType.worker e = true
    · rw [List.filter_cons_of_pos h] at hfil
      injection hfil with h1 h2
      rw [List.foldl_cons, (ar_exec_step_cases env st e).2 h, hnilcase rest _ h2, h1]
      unfold update_node_group_resource
      dsimp only
      rw [if_pos rfl]
    · rw [List.filter_cons_of_neg (by simpa using h)] at hfil
      rw [List.foldl_cons, (ar_exec_step_cases env st e).1 (by simpa using h)]
      exact ih _ g hfil

/-- C7: the AllReduce auto-scaler only scales up. The alive count is exactly the
count of workers whose status is RUNNING, PENDING, INITIAL or SUCCEEDED; an
iteration whose plan proposes at most that many workers executes nothing; an
executed iteration updates only the WORKER group of the resource config, sets the
perf monitor target to the group count, calls adjust_worker once with the canonical
group, and hands the single resulting plan to the Scaler. -/
theorem c7_allreduce_scales_up_only (env : AREnv) (jr : NodeType → GroupResource)
    (workers : List Node) (plan : ResourcePlan) (g : GroupResource)
    (hl : lookup_group plan NodeType.worker = some g)
    (hnd : (plan.nodeGroupResources.map Prod.fst).Nodup) :
    get_alive_worker_num workers = workers.countP (fun w =>
      decide (w.status = NodeStatus.running ∨ w.status = NodeStatus.pending
        ∨ w.status = NodeStatus.initial ∨ w.status = NodeStatus.succeeded))
    ∧ (g.count ≤ get_alive_worker_num workers →
        periodic_adjust_worker_iteration env jr workers plan = none)
    ∧ (get_alive_worker_num workers < g.count →
        periodic_adjust_worker_iteration env jr workers plan
          = some (ar_execute_job_optimization_plan env jr (some plan))
        ∧ (ar_execute_job_optimization_plan env jr (some plan)).perfTargets = [g.count]
        ∧ (ar_execute_job_optimization_plan env jr (some plan)).adjustWorkerCalls
            = [{ count := g.count, nodeResource := g.nodeResource }]
        ∧ (ar_execute_job_optimization_plan env jr (some plan)).scaleCalls
            = [(ar_execute_job_optimization_plan env jr (some plan)).plan]
        ∧ (∀ t, t ≠ NodeType.worker →
            (ar_execute_job_optimization_plan env jr (some plan)).jobResource t = jr t)
        ∧ (ar_execute_job_optimization_plan env jr (some plan)).jobResource NodeType.worker
            = { count := g.count, nodeResource := g.nodeResource }) := by
  have halive : get_alive_worker_num workers = workers.countP (fun w =>
      decide (w.status = NodeStatus.running ∨ w.status = NodeStatus.pending
        ∨ w.status = NodeStatus.initial ∨ w.status = NodeStatus.succeeded)) := by
    unfold get_alive_worker_num
    apply List.countP_congr
    intro w _
    cases w.status <;> simp [List.contains]
  have hmem : (NodeType.worker, g) ∈ plan.nodeGroupResources := by
    unfold lookup_group at hl
    cases hfind : plan.nodeGroupResources.find? fun e => e.1 == NodeType.worker with
    | none => rw [hfind] at hl; cases hl
    | some e =>
      rw [hfind] at hl
      simp only [Option.map_some'] at hl
      have he := List.find?_some hfind
      have hm := List.mem_of_find?_eq_some hfind
      have h1 : e.1 = NodeType.worker := by simpa using he
      have h2 : e.2 = g := by injection hl
      have he2 : e = (NodeType.worker, g) := by
        rw [← h1, ← h2]
      rwa [he2] at hm
  refine ⟨halive, ?_, ?_⟩
  · intro hle
    unfold periodic_adjust_worker_iteration
    dsimp only
    rw [hl]
    dsimp only
    rw [if_pos hle]
  · intro hgt
    have hexec : periodic_adjust_worker_iteration env jr workers plan
        = some (ar_execute_job_optimization_plan env jr (some plan)) := by
      unfold periodic_adjust_worker_iteration
      dsimp only
      rw [hl]
      dsimp only
      rw [if_neg (by omega)]
    have hpos : 0 < g.count := by omega
    have hfil : plan.nodeGroupResources.filter (group_pos NodeType.worker)
        = [(NodeType.worker, g)] := filter_group_pos_of_nodup hnd hmem hpos
    have hne : plan.isEmptyPlan = false := by
      unfold ResourcePlan.isEmptyPlan
      cases hng : plan.nodeGroupResources with
      | nil => rw [hng] at hmem; cases hmem
      | cons a l => simp [hng]
    have hunfold : ar_execute_job_optimization_plan env jr (some plan)
        = (let st := plan.nodeGroupResources.foldl (ar_exec_step env)
            { jobResource := jr, scalePlan := ScalePlan.new, perfTargets := [],
              adjustWorkerCalls := [] }
           ({ plan := st.scalePlan, scaleCalls := [st.scalePlan],
              jobResource := st.jobResource, perfTargets := st.perfTargets,
              adjustWorkerCalls := st.adjustWorkerCalls } : ARExecResult)) := by
      unfold ar_execute_job_optimization_plan
      dsimp only
      rw [if_neg (by simp [hne])]
    have hfields := ar_fold_fields env plan.nodeGroupResources
      { jobResource := jr, scalePlan := ScalePlan.new, perfTargets := [],
        adjustWorkerCalls := [] }
    refine ⟨hexec, ?_, ?_, ?_, ?_, ?_⟩
    · rw [hunfold]
      dsimp only
      rw [hfields.1, hfil]
      rfl
    · rw [hunfold]
      dsimp only
      rw [hfields.2.1, hfil]
      rfl
    · rw [hunfold]
    · intro t ht
      rw [hunfold]
      exact hfields.2.2 t ht
    · rw [hunfold]
      exact ar_fold_jobResource_worker env plan.nodeGroupResources _ g hfil

/-- Concrete C7 witness inputs: four alive workers and a plan proposing six. -/
def c7Env : AREnv := { adjustWorker := fun _ => ScalePlan.new }

def c7Workers : List Node :=
  [{ type := NodeType.worker, id := 0, status := NodeStatus.running },
   { type := NodeType.worker, id := 1, status := NodeStatus.pending },
   { type := NodeType.worker, id := 2, status := NodeStatus.initial },
   { type := NodeType.worker, id := 3, status := NodeStatus.succeeded },
   { type := NodeType.worker, id := 4, status := NodeStatus.failed }]

def c7Plan : ResourcePlan :=
  { nodeGroupResources :=
      [(NodeType.worker, { count := 6, nodeResource := { cpu := 1, memory := 1024 } })],
    nodeResources := [] }

/-- Witness for C7: with four alive workers and a plan proposing six, the executed
iteration sets the perf target to six and calls adjust_worker with count six. -/
theorem c7_allreduce_scales_up_only_witness :
    (ar_execute_job_optimization_plan c7Env zeroJobResource (some c7Plan)).perfTargets = [6]
    ∧ (ar_execute_job_optimization_plan c7Env zeroJobResource (some c7Plan)).adjustWorkerCalls
        = [{ count := 6, nodeResource := { cpu := 1, memory := 1024 } }] :=
  ⟨((c7_allreduce_scales_up_only c7Env zeroJobResource c7Workers c7Plan
      { count := 6, nodeResource := { cpu := 1, memory := 1024 } } (by decide)
      (by decide)).2.2 (by decide)).2.1,
   ((c7_allreduce_scales_up_only c7Env zeroJobResource c7Workers c7Plan
      { count := 6, nodeResource := { cpu := 1, memory := 1024 } } (by decide)
      (by decide)).2.2 (by decide)).2.2.1⟩

lemma ps_exec_step_eq (env : PSEnv) (st : PSExecState) (e : NodeType × GroupResource) :
    ps_exec_step env st e =
      if e.2.count > 0 then
        if e.1 = NodeType.ps then
          { st with
            jobResource := update_node_group_resource st.jobResource e.1
              e.2.count e.2.nodeResource.cpu e.2.nodeResource.memory,
            scalePlan := st.scalePlan.merge
              (env.adjustPs { count := e.2.count, nodeResource := e.2.nodeResource }),
            perfResets := st.perfResets + 1,
            adjustPsCalls := st.adjustPsCalls
              ++ [{ count := e.2.count, nodeResource := e.2.nodeResource }] }
        else if e.1 = NodeType.worker then
          { st with
            jobResource := update_node_group_resource st.jobResource e.1
              e.2.count e.2.nodeResource.cpu e.2.nodeResource.memory,
            scalePlan := st.scalePlan.merge
              (env.adjustWorker { count := e.2.count, nodeResource := e.2.nodeResource }),
            perfTargets := st.perfTargets ++ [env.chiefNum + e.2.count],
            adjustWorkerCalls := st.adjustWorkerCalls
              ++ [{ count := e.2.count, nodeResource := e.2.nodeResource }] }
        else
          { st with
            jobResource := update_node_group_resource st.jobResource e.1
              e.2.count e.2.nodeResource.cpu e.2.nodeResource.memory }
      else st := by
  unfold ps_exec_step
  by_cases h1 : e.2.count > 0
  · rw [if_pos h1, if_pos h1]
    by_cases h2 : e.1 = NodeType.ps
    · rw [if_pos h2, if_pos h2]
      simp only [update_node_group_resource]
      rw [if_pos trivial]
    · rw [if_neg h2, if_neg h2]
      by_cases h3 : e.1 = NodeType.worker
      · rw [if_pos h3, if_pos h3]
        simp only [update_node_group_resource]
        rw [if_pos trivial]
      · rw [if_neg h3, if_neg h3]
  · rw [if_neg h1, if_neg h1]

lemma ps_fold_fields (env : PSEnv) :
    ∀ (entries : List (NodeType × GroupResource)) (st : PSExecState),
      (entries.foldl (ps_exec_step env) st).adjustPsCalls
        = st.adjustPsCalls ++ (entries.filter (group_pos NodeType.ps)).map
            (fun e => { count := e.2.count, nodeResource := e.2.nodeResource })
      ∧ (entries.foldl (ps_exec_step env) st).perfTargets
        = st.perfTargets ++ (entries.filter (group_pos NodeType.worker)).map
            (fun e => env.chiefNum + e.2.count)
      ∧ (entries.foldl (ps_exec_step env) st).perfResets
        = st.perfResets + (entries.filter (group_pos NodeType.ps)).length
      ∧ ((∀ gr, (env.adjustPs gr).psAddrs = []) →
          (∀ gr, (env.adjustWorker gr).psAddrs = []) →
          st.scalePlan.psAddrs = [] →
          (entries.foldl (ps_exec_step env) st).scalePlan.psAddrs = []) := by
  intro entries
  induction entries with
  | nil => intro st; simp
  | cons e rest ih =>
    intro st
    rw [List.foldl_cons, ps_exec_step_eq]
    by_cases h1 : e.2.count > 0
    · rw [if_pos h1]
      by_cases h2 : e.1 = NodeType.ps
      · rw [if_pos h2]
        have hgp : group_pos NodeType.ps e = true := by
          unfold group_pos
          simp [h2, h1]
        have hgw : group_pos NodeType.worker e = false := by
          unfold group_pos
          simp [h2]
        refine ⟨?_, ?_, ?_, ?_⟩
        · rw [(ih _).1, List.filter_cons_of_pos hgp]
          simp
        · rw [(ih _).2.1, List.filter_cons_of_neg (by simp [hgw])]
        · rw [(ih _).2.2.1, List.filter_cons_of_pos hgp]
          dsimp only [List.length_cons]
          omega
        · intro hps hw hsp
          refine (ih _).2.2.2 hps hw ?_
          dsimp only
          unfold ScalePlan.merge
          rw [hsp, hps]
          rfl
      · rw [if_neg h2]
        by_cases h3 : e.1 = NodeType.worker
        · rw [if_pos h3]
          have hgp : group_pos NodeType.ps e = false := by
            unfold group_pos
            simp [h3]
          have hgw : group_pos NodeType.worker e = true := by
            unfold group_pos
            simp [h3, h1]
          refine ⟨?_, ?_, ?_, ?_⟩
          · rw [(ih _).1, List.filter_cons_of_neg (by simp [hgp])]
          · rw [(ih _).2.1, List.filter_cons_of_pos hgw]
            simp
          · rw [(ih _).2.2.1, List.filter_cons_of_neg (by simp [hgp])]
          · intro hps hw hsp
            refine (ih _).2.2.2 hps hw ?_
            dsimp only
            unfold ScalePlan.merge
            rw [hsp, hw]
            rfl
        · rw [if_neg h3]
          have hgp : group_pos NodeType.ps e = false := by
            unfold group_pos
            simp [h2]
          have hgw : group_pos NodeType.worker e = false := by
            unfold group_pos
            simp [h3]
          rw [List.filter_cons_of_neg (by simp [hgp]),
            List.filter_cons_of_neg (by simp [hgw])]
          exact ⟨(ih _).1, (ih _).2.1, (ih _).2.2.1, fun hps hw hsp =>
            (ih _).2.2.2 hps hw hsp⟩
    · rw [if_neg h1]
      have hgp : group_pos NodeType.ps e = false := by
        unfold group_pos
        simp [h1]
      have hgw : group_pos NodeType.worker e = false := by
        unfold group_pos
        simp [h1]
      rw [List.filter_cons_of_neg (by simp [hgp]),
        List.filter_cons_of_neg (by simp [hgw])]
      exact ih st

lemma migrate_nodes_psAddrs (env : PSEnv) (nrs : List (String × NodeResource))
    (hmp : ∀ l, (env.migratePs l).psAddrs = [])
    (hmw : ∀ l, (env.migrateWorkers l).psAddrs = []) :
    (migrate_nodes env nrs).plan.psAddrs = [] := by
  unfold migrate_nodes
  dsimp only
  split_ifs <;> simp [ScalePlan.merge, ScalePlan.new, hmp, hmw]

/-- C8: the PS variant of execute_job_optimization_plan on a non empty plan returns
a ScalePlan whose ps_addrs equal the current PS address list and hands exactly that
plan to the Scaler once; a PS group with positive count leads to one adjust_ps call
with the re-read canonical group and at least one perf monitor reset; a WORKER
group with positive count sets the perf monitor target to the chief count plus the
group count. The manager returned plans are assumed to carry no ps_addrs of their
own, as the managers produce launches and removals; every migration name is assumed
to have at least two dash separated parts, since a shorter name raises in the
source at the type tag read and aborts the call before the Scaler is reached,
an error path the total name_type_tag model does not reproduce. -/
theorem c8_ps_execute_nonempty_plan (env : PSEnv) (jr : NodeType → GroupResource)
    (plan : ResourcePlan)
    (hps : ∀ gr, (env.adjustPs gr).psAddrs = [])
    (hw : ∀ gr, (env.adjustWorker gr).psAddrs = [])
    (hmp : ∀ l, (env.migratePs l).psAddrs = [])
    (hmw : ∀ l, (env.migrateWorkers l).psAddrs = [])
    (_hnames : ∀ nr ∈ plan.nodeResources, 2 ≤ List.length ((Prod.fst nr).splitOn "-"))
    (hne : plan.isEmptyPlan = false) :
    (ps_execute_job_optimization_plan env jr (some plan)).plan.psAddrs = env.psAddrs
    ∧ (ps_execute_job_optimization_plan env jr (some plan)).scaleCalls
        = [(ps_execute_job_optimization_plan env jr (some plan)).plan]
    ∧ (∀ g, (plan.nodeGroupResources.map Prod.fst).Nodup →
        (NodeType.ps, g) ∈ plan.nodeGroupResources → 0 < g.count →
        (ps_execute_job_optimization_plan env jr (some plan)).adjustPsCalls
            = [{ count := g.count, nodeResource := g.nodeResource }]
        ∧ 1 ≤ (ps_execute_job_optimization_plan env jr (some plan)).perfResets)
    ∧ (∀ g, (plan.nodeGroupResources.map Prod.fst).Nodup →
        (NodeType.worker, g) ∈ plan.nodeGroupResources → 0 < g.count →
        (ps_execute_job_optimization_plan env jr (some plan)).perfTargets
            = [env.chiefNum + g.count]) := by
  have hunfold : ps_execute_job_optimization_plan env jr (some plan)
      = (let st := plan.nodeGroupResources.foldl (ps_exec_step env)
            (ps_exec_initial_state jr)
         let mig := ps_exec_migration env plan
         let final := ps_exec_scale_plan env st mig plan
         ({ plan := final, scaleCalls := [final], jobResource := st.jobResource,
            perfTargets := st.perfTargets, perfResets := st.perfResets + mig.perfResets,
            adjustPsCalls := st.adjustPsCalls, adjustWorkerCalls := st.adjustWorkerCalls,
            migratePsCalls := mig.migratePsCalls,
            migrateWorkerCalls := mig.migrateWorkerCalls } : PSExecResult)) := by
    unfold ps_execute_job_optimization_plan
    dsimp only
    rw [if_neg (by simp [hne])]
  have hfold := ps_fold_fields env plan.nodeGroupResources (ps_exec_initial_state jr)
  have hstAddrs : (plan.nodeGroupResources.foldl (ps_exec_step env)
      (ps_exec_initial_state jr)).scalePlan.psAddrs = [] :=
    hfold.2.2.2 hps hw rfl
  have hmigAddrs : (ps_exec_migration env plan).plan.psAddrs = [] := by
    unfold ps_exec_migration
    split_ifs
    · exact migrate_nodes_psAddrs env plan.nodeResources hmp hmw
    · rfl
  refine ⟨?_, ?_, ?_, ?_⟩
  · rw [hunfold]
    dsimp only
    unfold ps_exec_scale_plan
    dsimp only
    split_ifs
    · unfold ScalePlan.merge
      dsimp only
      rw [hstAddrs, hmigAddrs]
      rfl
    · rw [hstAddrs]
      rfl
  · rw [hunfold]
  · intro g hnd hmem hpos
    have hfil : plan.nodeGroupResources.filter (group_pos NodeType.ps)
        = [(NodeType.ps, g)] := filter_group_pos_of_nodup hnd hmem hpos
    constructor
    · rw [hunfold]
      dsimp only
      rw [hfold.1, hfil]
      rfl
    · rw [hunfold]
      dsimp only
      rw [hfold.2.2.1, hfil]
      dsimp only [List.length_cons, List.length_nil]
      omega
  · intro g hnd hmem hpos
    have hfil : plan.nodeGroupResources.filter (group_pos NodeType.worker)
        = [(NodeType.worker, g)] := filter_group_pos_of_nodup hnd hmem hpos
    rw [hunfold]
    dsimp only
    rw [hfold.2.1, hfil]
    rfl

/-- Concrete C8 witness inputs: a non empty plan with a PS group of five and a
worker group of four, one chief, and managers returning plans without addresses. -/
def c8Env : PSEnv :=
  { adjustPs := fun _ => { launchNodes := ["ps-new"], removeNodes := [], psAddrs := [] },
    adjustWorker := fun _ => { launchNodes := ["worker-new"], removeNodes := [],
                               psAddrs := [] },
    migratePs := fun _ => ScalePlan.new, migrateWorkers := fun _ => ScalePlan.new,
    psAddrs := ["ps-0:2222", "ps-1:2222"], chiefNum := 1 }

def c8Plan : ResourcePlan :=
  { nodeGroupResources :=
      [(NodeType.ps, { count := 5, nodeResource := { cpu := 2, memory := 2048 } }),
       (NodeType.worker, { count := 4, nodeResource := { cpu := 1, memory := 1024 } })],
    nodeResources := [] }

/-- Witness for C8 at the concrete plan: ps_addrs attached, one adjust_ps call with
the canonical PS group, a reset, and the worker perf target of chief plus count. -/
theorem c8_ps_execute_nonempty_plan_witness :
    (ps_execute_job_optimization_plan c8Env zeroJobResource (some c8Plan)).plan.psAddrs
      = ["ps-0:2222", "ps-1:2222"]
    ∧ (ps_execute_job_optimization_plan c8Env zeroJobResource (some c8Plan)).adjustPsCalls
      = [{ count := 5, nodeResource := { cpu := 2, memory := 2048 } }]
    ∧ (ps_execute_job_optimization_plan c8Env zeroJobResource (some c8Plan)).perfTargets
      = [5] :=
  ⟨(c8_ps_execute_nonempty_plan c8Env zeroJobResource c8Plan (fun _ => rfl) (fun _ => rfl)
      (fun _ => rfl) (fun _ => rfl) (by decide) (by decide)).1,
   ((c8_ps_execute_nonempty_plan c8Env zeroJobResource c8Plan (fun _ => rfl) (fun _ => rfl)
      (fun _ => rfl) (fun _ => rfl) (by decide) (by decide)).2.2.1
      { count := 5, nodeResource := { cpu := 2, memory := 2048 } }
      (by decide) (by decide) (by decide)).1,
   (c8_ps_execute_nonempty_plan c8Env zeroJobResource c8Plan (fun _ => rfl) (fun _ => rfl)
      (fun _ => rfl) (fun _ => rfl) (by decide) (by decide)).2.2.2
      { count := 4, nodeResource := { cpu := 1, memory := 1024 } }
      (by decide) (by decide) (by decide)⟩

/-- Concrete C10 counterexample inputs: an ALLREDUCE argument set with a configured
worker relaunch budget of three, and the event pair that brings a fresh zero budget
worker to running and then fails it with a generic exit reason. -/
def c10Args : Args :=
  { distributionStrategy := DistributionStrategy.allreduce,
    relaunchOnWorkerFailure := 3, numWorkers := 1 }

def c10Cfg : MgrCfg := { maxMemory := 1000, relaunchPod := true, waitPendingRelaunch := false }

def c10ToRunning : WatchEvent :=
  { eventType := NodeEventType.modified,
    node := { type := NodeType.worker, status := NodeStatus.running } }

def c10Fail : WatchEvent :=
  { eventType := NodeEventType.modified,
    node := { type := NodeType.worker, status := NodeStatus.failed,
              exitReason := NodeExitReason.unknown } }

/-- C10 as stated is false on the code in its consequence: create_node_manager does
override relaunch_on_worker_failure to zero for the ALLREDUCE strategy, yet a worker
initialized with that zero budget is still relaunched on its first generic failure,
because the budget check of _should_relaunch is strict. -/
theorem c10_zero_budget_worker_still_relaunched_counterexample :
    (create_node_manager c10Args).relaunchOnWorkerFailure = 0
    ∧ (process_event c10Cfg
        (run_events c10Cfg
          (init_worker_node (create_node_manager c10Args).relaunchOnWorkerFailure 0)
          [c10ToRunning])
        c10Fail).relaunched = true := by decide

/-- C10 amended: for every args whose distribution strategy is neither
PARAMETER_SERVER nor CUSTOM, create_node_manager overrides the configured
relaunch_on_worker_failure to zero before constructing the NodeManager; a worker
with that zero budget is still relaunched once on a generic failure and without
bound on KILLED failures, so the override does not make workers never relaunch. -/
theorem c10_relaunch_on_worker_failure_override (args : Args)
    (h : args.distributionStrategy ≠ DistributionStrategy.parameterServer
      ∧ args.distributionStrategy ≠ DistributionStrategy.custom) :
    (create_node_manager args).relaunchOnWorkerFailure = 0 := by
  unfold create_node_manager
  dsimp only
  rw [if_pos h]
  rfl

/-- Witness for C10 at the concrete ALLREDUCE argument set. -/
theorem c10_relaunch_on_worker_failure_override_witness :
    (create_node_manager c10Args).relaunchOnWorkerFailure = 0 :=
  c10_relaunch_on_worker_failure_override c10Args (by decide)

end DLRover
